import Mathlib

/-!
Shallow embedding of the chatbot backend core: the Redis-backed JSON cache
(RedisService.getJson), the conversation-history store, the user-profile cache,
the RAG retrieval ranker (selectTopKDocuments / cosineSimilarity) and the
createChat orchestrator of OpenaiService.

Modelling conventions:
* The Redis store is modelled per namespace as a partial map from the full
  cache-key string to a stored entry carrying the value and the TTL (seconds)
  it was written with.  Expiry makes an entry absent (`none`).
* `new Date()` / `toISOString()` are modelled by a clock counter in the state
  and an injective-by-convention rendering function `iso : Nat -> String`
  supplied as a dependency; every write that records a time bumps the clock.
* The external OpenAI HTTP calls (chat completion, embeddings) are opaque
  dependencies: `complete` may fail with a provider error (axios error with an
  optional provider message), `embed` returns one vector per input.
* JavaScript numbers are modelled by an arbitrary linear ordered field, with
  `Math.sqrt` passed as a function parameter; claims about concrete scores
  instantiate it with `Real` and `Real.sqrt`.
* JavaScript truthiness on optional strings (`if (userName)`) is `truthy`:
  absent or empty string is falsy.
-/

namespace Chatbot

/-- One stored conversation turn (role, content, ISO timestamp). -/
structure Turn where
  role : String
  content : String
  timestamp : String
deriving DecidableEq, Repr

/-- A chat message sent to the completion API. -/
structure Msg where
  role : String
  content : String
deriving DecidableEq, Repr

/-- The cached user profile `{ name, cachedAt: new Date() }`. -/
structure Profile where
  name : String
  cachedAt : Nat
deriving DecidableEq, Repr

/-- A point-in-time conversation snapshot `{ timestamp, prompt, response, createdAt }`. -/
structure Snapshot where
  timestamp : String
  prompt : String
  response : String
  createdAt : Nat
deriving DecidableEq, Repr

/-- A cache entry: the stored value together with the TTL (seconds) it was
written with. -/
structure Entry (α : Type) where
  value : α
  ttl : Nat
deriving DecidableEq, Repr

/-- The persistent state: the three key namespaces of the Redis store, plus the
clock used to model `new Date()`. -/
structure St where
  profiles : String → Option (Entry Profile)
  histories : String → Option (Entry (List Turn))
  snapshots : String → Option (Entry Snapshot)
  clock : Nat

/-- The empty store at time zero. -/
def emptySt : St where
  profiles := fun _ => none
  histories := fun _ => none
  snapshots := fun _ => none
  clock := 0

/-- JS truthiness of an optional string: `undefined` and `""` are falsy. -/
def truthy : Option String → Bool
  | none => false
  | some s => s != ""

/-- JS `x || d` on an optional string: falls back to `d` on absent or empty. -/
def orDefault (x : Option String) (d : String) : String :=
  match x with
  | none => d
  | some s => if s = "" then d else s

/-- `Array.prototype.slice(-n)`: the last `n` elements (the whole list when it
is shorter than `n`). -/
def lastN (n : Nat) (l : List α) : List α :=
  l.drop (l.length - n)

/-- Key of the user profile: `user:${userName}:profile`. -/
def profileKey (userName : String) : String :=
  "user:" ++ userName ++ ":profile"

/-- Key of the rolling history: `conversation_history:${userName}`. -/
def historyKey (userName : String) : String :=
  "conversation_history:" ++ userName

/-- Key of a snapshot: `conversation:${userName}:${timestamp}`. -/
def conversationKey (userName timestamp : String) : String :=
  "conversation:" ++ userName ++ ":" ++ timestamp

/-- `RedisService.getJson`, at the string level: read the raw payload, return
`none` on a missing (or expired) key or a falsy (empty) payload, and `none`
when `JSON.parse` fails — parsing is modelled by the `parse` argument, whose
`none` result is the thrown-and-caught deserialization error. -/
def getJson (store : String → Option String) (parse : String → Option β)
    (key : String) : Option β :=
  match store key with
  | none => none
  | some v => if v = "" then none else parse v

/-- `OpenaiService.cacheUserName`: writes `{name, cachedAt: now}` under the
profile key with a 24-hour (86400 s) TTL, overwriting unconditionally. -/
def cacheUserName (st : St) (userName : String) : St :=
  { st with
    profiles := fun k =>
      if k = profileKey userName then some ⟨⟨userName, st.clock⟩, 86400⟩
      else st.profiles k
    clock := st.clock + 1 }

/-- `OpenaiService.getConversationHistory`: the cached turn list, `[]` when the
key holds nothing (`history || []`). -/
def getConversationHistory (st : St) (userName : String) : List Turn :=
  match st.histories (historyKey userName) with
  | some e => e.value
  | none => []

/-- `OpenaiService.addToConversationHistory`: read-modify-write that appends one
turn stamped with the current time, keeps the last 50 entries (`slice(-50)`)
and writes back with a 30-day (2592000 s) TTL. -/
def addToConversationHistory (iso : Nat → String) (st : St)
    (userName role content : String) : St :=
  let currentHistory := getConversationHistory st userName
  let trimmedHistory := lastN 50 (currentHistory ++ [⟨role, content, iso st.clock⟩])
  { st with
    histories := fun k =>
      if k = historyKey userName then some ⟨trimmedHistory, 2592000⟩
      else st.histories k
    clock := st.clock + 1 }

/-- `OpenaiService.clearConversationHistory`: unconditional delete of the
history key. -/
def clearConversationHistory (st : St) (userName : String) : St :=
  { st with
    histories := fun k =>
      if k = historyKey userName then none else st.histories k }

/-- `OpenaiService.cacheConversationContext`: writes the snapshot with a 7-day
(604800 s) TTL. -/
def cacheConversationContext (st : St) (userName timestamp prompt response : String) : St :=
  { st with
    snapshots := fun k =>
      if k = conversationKey userName timestamp then
        some ⟨⟨timestamp, prompt, response, st.clock⟩, 604800⟩
      else st.snapshots k
    clock := st.clock + 1 }

section Ranker

variable {α : Type} [LinearOrderedField α]

/-- The accumulator loop of `OpenaiService.cosineSimilarity`: one pass over the
indices `0 .. a.length - 1` building `(dot, normA, normB)`.  Out-of-range
access defaults to `0` (only reachable outside the embedding contract of
equal-length vectors). -/
def cosineLoop (a b : List α) : α × α × α :=
  (List.range a.length).foldl
    (fun acc i =>
      (acc.1 + a.getD i 0 * b.getD i 0,
       acc.2.1 + a.getD i 0 * a.getD i 0,
       acc.2.2 + b.getD i 0 * b.getD i 0))
    (0, 0, 0)

/-- `OpenaiService.cosineSimilarity`: returns `0` when either accumulated
squared norm is zero, else `dot / (sqrt normA * sqrt normB)`; `Math.sqrt` is
the `sqrt` parameter. -/
def cosineSimilarity (sqrt : α → α) (a b : List α) : α :=
  let l := cosineLoop a b
  if l.2.1 = 0 ∨ l.2.2 = 0 then 0
  else l.1 / (sqrt l.2.1 * sqrt l.2.2)

/-- One scored document: `{ index, score }`. -/
structure Scored (α : Type) where
  index : Nat
  score : α

/-- `scored.sort((a, b) => b.score - a.score)`: the stable descending sort by
score (ECMAScript `Array.prototype.sort` is stable), as a stable insertion
sort with the relation `x before y iff y.score ≤ x.score`. -/
def sortByScoreDesc (l : List (Scored α)) : List (Scored α) :=
  l.insertionSort (fun x y => y.score ≤ x.score)

/-- `OpenaiService.selectTopKDocuments`: one embedding batch `[query] ++
documents`, vector 0 is the query embedding, the rest are per-document
embeddings; documents are scored by cosine similarity, stably sorted by
descending score, and the first `topK` are returned as their original string
content. -/
def selectTopKDocuments (sqrt : α → α) (embed : String → List String → List (List α))
    (query : String) (documents : List String) (topK : Nat)
    (embeddingModel : String) : List String :=
  let inputs := query :: documents
  let embeddings := embed embeddingModel inputs
  let queryEmbedding := embeddings.headD []
  let docEmbeddings := embeddings.tail
  let scored := docEmbeddings.enum.map
    (fun p => Scored.mk p.1 (cosineSimilarity sqrt queryEmbedding p.2))
  let sorted := sortByScoreDesc scored
  (sorted.take topK).map (fun s => documents.getD s.index "")

end Ranker

/-- An axios-style completion failure: `providerMessage` models
`error.response?.data?.error?.message`, `message` models `error.message`. -/
structure ProviderError where
  providerMessage : Option String
  message : String
deriving DecidableEq, Repr

/-- The wrapped error thrown by `createChat`:
`OpenAI API error: ${error.response?.data?.error?.message || error.message}`. -/
def wrapError (e : ProviderError) : String :=
  "OpenAI API error: " ++ orDefault e.providerMessage e.message

/-- The external collaborators of `createChat`: `Math.sqrt`, the embeddings
endpoint (model, inputs), the chat-completions endpoint (model, messages,
temperature), and the clock rendering of `toISOString()`. -/
structure Deps (α : Type) where
  sqrt : α → α
  embed : String → List String → List (List α)
  complete : String → List Msg → α → Except ProviderError String
  iso : Nat → String

/-- The numbered, newline-joined context block `(1) doc1\n(2) doc2\n...`. -/
def contextBlock (docs : List String) : String :=
  String.intercalate "\n" (docs.enum.map (fun p => "(" ++ toString (p.1 + 1) ++ ") " ++ p.2))

/-- The fixed instruction preamble of the RAG system message. -/
def ragPreamble : String :=
  "You are a helpful assistant. Use the provided context to answer the user. " ++
  "If the answer is not in the context, say you do not know.\n\nContext:\n"

/-- The history-derived messages: the cached turns with falsy role or content
filtered out (`msg && msg.role && msg.content`), mapped to `{role, content}`. -/
def historyMessages (st : St) (userName : String) : List Msg :=
  ((getConversationHistory st userName).filter
      (fun m => m.role != "" && m.content != "")).map
    (fun m => ⟨m.role, m.content⟩)

/-- The message-assembly portion of `createChat` (lines 140-179): optionally
queue one RAG system message, then — whenever a truthy `userName` is present —
reassign the whole array to the history-derived messages (discarding the RAG
message), and finally append the current prompt as a `user` message. -/
def buildMessages {α : Type} [LinearOrderedField α] (deps : Deps α) (st : St)
    (prompt : String) (userName : Option String) (useRag : Option Bool)
    (documents : Option (List String)) (topK : Option Nat)
    (embeddingModel : Option String) : List Msg :=
  let ragMessages : List Msg :=
    if useRag.getD false && decide (0 < (documents.getD []).length) then
      let selectedDocs := selectTopKDocuments deps.sqrt deps.embed prompt
        (documents.getD []) (topK.getD 3)
        (orDefault embeddingModel "text-embedding-3-small")
      [⟨"system", ragPreamble ++ contextBlock selectedDocs⟩]
    else []
  let messages := if truthy userName then historyMessages st (userName.getD "")
    else ragMessages
  messages ++ [⟨"user", prompt⟩]

/-- `OpenaiService.createChat`: cache the user profile (before the try block),
assemble the messages, invoke the completion; on failure return the wrapped
error, on success normalise falsy content to `No response`, append the two
history turns and, when both `timestamp` and `userName` are truthy, write the
snapshot.  (`now` and `initTime` are only logged by the source and are
omitted.)  Returns the outcome together with the final state. -/
def createChat {α : Type} [LinearOrderedField α] (deps : Deps α) (prompt : String)
    (model : Option String) (temperature : Option α) (timestamp : Option String)
    (userName : Option String) (useRag : Option Bool)
    (documents : Option (List String)) (topK : Option Nat)
    (embeddingModel : Option String) (st : St) : Except String String × St :=
  let st1 := if truthy userName then cacheUserName st (userName.getD "") else st
  let messages := buildMessages deps st1 prompt userName useRag documents topK embeddingModel
  match deps.complete (orDefault model "gpt-3.5-turbo") messages
      (temperature.getD (7 / 10)) with
  | .error e => (.error (wrapError e), st1)
  | .ok content =>
    let responseContent := if content = "" then "No response" else content
    let st2 :=
      if truthy userName then
        addToConversationHistory deps.iso
          (addToConversationHistory deps.iso st1 (userName.getD "") "user" prompt)
          (userName.getD "") "assistant" responseContent
      else st1
    let st3 :=
      if truthy timestamp && truthy userName then
        cacheConversationContext st2 (userName.getD "") (timestamp.getD "")
          prompt responseContent
      else st2
    (.ok responseContent, st3)

/-- A sequence of history appends for one user (role, content pairs). -/
def appendAll (iso : Nat → String) (st : St) (userName : String)
    (ps : List (String × String)) : St :=
  ps.foldl (fun s p => addToConversationHistory iso s userName p.1 p.2) st

/-- The turns a sequence of appends intends to record, stamped with the clock
values consumed starting at `c`. -/
def turnsFrom (iso : Nat → String) (c : Nat) : List (String × String) → List Turn
  | [] => []
  | p :: ps => ⟨p.1, p.2, iso c⟩ :: turnsFrom iso (c + 1) ps

/-- Modelled from the spec: the mathematical dot product of two embedding
vectors, `dot(a,b)`. -/
def specDot (a b : List ℝ) : ℝ :=
  ∑ i in Finset.range a.length, a.getD i 0 * b.getD i 0

/-- Modelled from the spec: the squared Euclidean norm of an embedding
vector. -/
def specNormSq (a : List ℝ) : ℝ :=
  ∑ i in Finset.range a.length, a.getD i 0 * a.getD i 0

/-- Modelled from the spec: the Euclidean norm of an embedding vector. -/
noncomputable def specNorm (a : List ℝ) : ℝ :=
  Real.sqrt (specNormSq a)

/-- Concrete dependencies over `ℚ` whose completion always answers `Hello`. -/
def depsHello : Deps ℚ where
  sqrt := id
  embed := fun _ _ => []
  complete := fun _ _ _ => .ok "Hello"
  iso := fun n => toString n

/-- Concrete dependencies over `ℚ` whose completion always fails with a
provider-supplied message. -/
def depsFail : Deps ℚ where
  sqrt := id
  embed := fun _ _ => []
  complete := fun _ _ _ =>
    .error ⟨some "You exceeded your current quota",
            "Request failed with status code 429"⟩
  iso := fun n => toString n

/-- The embedding table of the spec's ranking example: query embedding `[1,0]`
and document embeddings `[1,0]`, `[0,1]`, `[0.7,0.7]`. -/
noncomputable def embedExample : String → List String → List (List ℝ) :=
  fun _ _ => [[1, 0], [1, 0], [0, 1], [7 / 10, 7 / 10]]

/-- A degenerate rational embedding function honouring the one-vector-per-input
contract. -/
def embedConst : String → List String → List (List ℚ) :=
  fun _ inputs => inputs.map (fun _ => [1])

/-- A tiny raw store for exercising `getJson`: one well-formed payload and one
corrupt payload. -/
def storeExample : String → Option String :=
  fun k => if k = "good" then some "41" else if k = "bad" then some "not json" else none

/-- A tiny parser standing in for `JSON.parse` on `Nat` payloads. -/
def parseExample : String → Option Nat :=
  fun s => if s = "41" then some 41 else none

/-! ## Helper lemmas -/

theorem lastN_of_le {n : Nat} {l : List γ} (h : l.length ≤ n) : lastN n l = l := by
  simp [lastN, Nat.sub_eq_zero_of_le h]

theorem length_lastN (n : Nat) (l : List γ) : (lastN n l).length = min n l.length := by
  simp [lastN]
  omega

theorem lastN_append_right {n : Nat} (zs l : List γ) (h : n ≤ l.length) :
    lastN n (zs ++ l) = lastN n l := by
  unfold lastN
  have hlen : (zs ++ l).length - n = zs.length + (l.length - n) := by
    simp [List.length_append]
    omega
  rw [hlen, List.drop_append]

theorem lastN_idem_append (n : Nat) (xs ys : List γ) :
    lastN n (lastN n xs ++ ys) = lastN n (xs ++ ys) := by
  rcases le_or_lt n xs.length with h | h
  · have hx : xs.take (xs.length - n) ++ lastN n xs = xs :=
      List.take_append_drop _ xs
    have hlen : n ≤ (lastN n xs ++ ys).length := by
      rw [List.length_append, length_lastN]
      omega
    calc lastN n (lastN n xs ++ ys)
        = lastN n (xs.take (xs.length - n) ++ (lastN n xs ++ ys)) :=
          (lastN_append_right _ _ hlen).symm
      _ = lastN n (xs ++ ys) := by rw [← List.append_assoc, hx]
  · rw [show lastN n xs = xs from lastN_of_le (by omega)]

theorem getConversationHistory_add (iso : Nat → String) (st : St) (u r c : String) :
    getConversationHistory (addToConversationHistory iso st u r c) u
      = lastN 50 (getConversationHistory st u ++ [⟨r, c, iso st.clock⟩]) := by
  simp [getConversationHistory, addToConversationHistory]

theorem length_turnsFrom (iso : Nat → String) (c : Nat) (ps : List (String × String)) :
    (turnsFrom iso c ps).length = ps.length := by
  induction ps generalizing c with
  | nil => rfl
  | cons p ps ih => simp [turnsFrom, ih]

theorem appendAll_cons (iso : Nat → String) (st : St) (u : String)
    (p : String × String) (ps : List (String × String)) :
    appendAll iso st u (p :: ps)
      = appendAll iso (addToConversationHistory iso st u p.1 p.2) u ps := rfl

theorem appendAll_history (iso : Nat → String) (u : String)
    (p : String × String) (ps : List (String × String)) (st : St) :
    getConversationHistory (appendAll iso st u (p :: ps)) u
      = lastN 50 (getConversationHistory st u ++ turnsFrom iso st.clock (p :: ps)) := by
  induction ps generalizing st p with
  | nil =>
    rw [appendAll_cons]
    show getConversationHistory (addToConversationHistory iso st u p.1 p.2) u = _
    rw [getConversationHistory_add]
    rfl
  | cons q ps ih =>
    rw [appendAll_cons, ih]
    rw [getConversationHistory_add]
    show _ = lastN 50 (getConversationHistory st u ++
      (⟨p.1, p.2, iso st.clock⟩ :: turnsFrom iso (st.clock + 1) (q :: ps)))
    rw [lastN_idem_append, List.append_assoc]
    rfl

theorem profileWrite_histories (st : St) (userName : Option String) :
    (if truthy userName then cacheUserName st (userName.getD "") else st).histories
      = st.histories := by
  split <;> rfl

theorem profileWrite_snapshots (st : St) (userName : Option String) :
    (if truthy userName then cacheUserName st (userName.getD "") else st).snapshots
      = st.snapshots := by
  split <;> rfl

/-! ## Claims -/

/-- **C2**: each history append reads the current history, appends one turn
stamped with the current time, truncates to the last 50 entries (dropping from
the front) and writes the sequence back with a 30-day (2592000 s) TTL; hence
after at least 51 sequential appends for one user, `getConversationHistory`
returns exactly the last 50 appended turns in insertion order, whatever
history was cached before. -/
theorem claim_C2 (iso : Nat → String) (st : St) (u r c : String)
    (ps : List (String × String)) (h : 51 ≤ ps.length) :
    (addToConversationHistory iso st u r c).histories (historyKey u)
        = some ⟨lastN 50 (getConversationHistory st u ++ [⟨r, c, iso st.clock⟩]), 2592000⟩
    ∧ getConversationHistory (appendAll iso st u ps) u
        = lastN 50 (turnsFrom iso st.clock ps) := by
  constructor
  · simp [addToConversationHistory]
  · obtain ⟨p, ps', rfl⟩ : ∃ q qs, ps = q :: qs := by
      cases ps with
      | nil => simp at h
      | cons q qs => exact ⟨q, qs, rfl⟩
    rw [appendAll_history,
      lastN_append_right _ _ (by rw [length_turnsFrom]; omega)]

/-- Witness for C2: 51 concrete appends into the empty store. -/
theorem claim_C2_witness :
    (addToConversationHistory (fun n => toString n) emptySt "u" "user" "hi").histories
        (historyKey "u")
        = some ⟨lastN 50 (getConversationHistory emptySt "u"
            ++ [⟨"user", "hi", toString (0 : Nat)⟩]), 2592000⟩
    ∧ getConversationHistory
        (appendAll (fun n => toString n) emptySt "u"
          (List.replicate 51 ("user", "hi"))) "u"
        = lastN 50 (turnsFrom (fun n => toString n) 0 (List.replicate 51 ("user", "hi"))) :=
  claim_C2 (fun n => toString n) emptySt "u" "user" "hi"
    (List.replicate 51 ("user", "hi")) (by simp)

/-- **C3**: `getConversationHistory` never signals absence distinctly — a user
with nothing cached under the history key gets the empty sequence, and so does
any user immediately after `clearConversationHistory`. -/
theorem claim_C3 (st : St) (u : String) :
    (st.histories (historyKey u) = none → getConversationHistory st u = [])
    ∧ getConversationHistory (clearConversationHistory st u) u = [] := by
  constructor
  · intro h
    simp [getConversationHistory, h]
  · simp [getConversationHistory, clearConversationHistory]

/-- Witness for C3 on the empty store. -/
theorem claim_C3_witness :
    getConversationHistory emptySt "Ann" = []
    ∧ getConversationHistory (clearConversationHistory emptySt "Ann") "Ann" = [] :=
  ⟨(claim_C3 emptySt "Ann").1 rfl, (claim_C3 emptySt "Ann").2⟩

/-- **C9**: `RedisService.getJson` treats corrupt payloads as absent: a key
that was never set (or expired) yields `none`, a payload on which `JSON.parse`
fails yields `none` (logged, not thrown — modelled by totality), and a
non-empty payload that parses yields the deserialized value. -/
theorem claim_C9 {β : Type} (store : String → Option String)
    (parse : String → Option β) (key : String) :
    (store key = none → getJson store parse key = none)
    ∧ (∀ v, store key = some v → parse v = none → getJson store parse key = none)
    ∧ (∀ v x, store key = some v → v ≠ "" → parse v = some x →
        getJson store parse key = some x) := by
  refine ⟨fun h => by simp [getJson, h], fun v hv hp => ?_, fun v x hv hne hp => ?_⟩
  · by_cases he : v = "" <;> simp [getJson, hv, he, hp]
  · simp [getJson, hv, hne, hp]

/-- Witness for C9: a missing key, a corrupt payload and a good payload. -/
theorem claim_C9_witness :
    getJson storeExample parseExample "missing" = none
    ∧ getJson storeExample parseExample "bad" = none
    ∧ getJson storeExample parseExample "good" = some 41 :=
  ⟨(claim_C9 storeExample parseExample "missing").1 rfl,
   (claim_C9 storeExample parseExample "bad").2.1 "not json" rfl rfl,
   (claim_C9 storeExample parseExample "good").2.2 "41" 41 rfl (by decide) rfl⟩

/-- **C1**: when a truthy user identifier is present, loading the conversation
history replaces (does not append to) any RAG system message queued earlier in
the same request: with `useRag = some true`, a non-empty document list and a
userName, the assembled message sequence is exactly the history-derived
messages followed by the new user prompt, with no RAG-context system
message. -/
theorem claim_C1 {α : Type} [LinearOrderedField α] (deps : Deps α) (st : St)
    (prompt : String) (userName : Option String) (useRag : Option Bool)
    (documents : Option (List String)) (topK : Option Nat) (em : Option String)
    (hrag : useRag = some true) (hdocs : 0 < (documents.getD []).length)
    (huser : truthy userName = true) :
    buildMessages deps st prompt userName useRag documents topK em
      = historyMessages st (userName.getD "") ++ [⟨"user", prompt⟩] := by
  simp [buildMessages, huser]

/-- Witness for C1: RAG requested with one document, user present. -/
theorem claim_C1_witness :
    buildMessages depsHello emptySt "Hi" (some "Ann") (some true) (some ["d1"]) none none
      = historyMessages emptySt "Ann" ++ [⟨"user", "Hi"⟩] :=
  claim_C1 depsHello emptySt "Hi" (some "Ann") (some true) (some ["d1"]) none none
    rfl (by decide) (by decide)

/-- **C7**: on any failure of the external completion call, `createChat` fails
as a whole with the single wrapped error — carrying the provider message when
one is available, the generic error message otherwise — and neither a
conversation-history turn nor a conversation snapshot is written for that
request. -/
theorem claim_C7 {α : Type} [LinearOrderedField α] (deps : Deps α)
    (prompt : String) (model : Option String) (temperature : Option α)
    (timestamp userName : Option String) (useRag : Option Bool)
    (documents : Option (List String)) (topK : Option Nat) (em : Option String)
    (st : St) (e : ProviderError)
    (hfail : deps.complete (orDefault model "gpt-3.5-turbo")
        (buildMessages deps
          (if truthy userName then cacheUserName st (userName.getD "") else st)
          prompt userName useRag documents topK em)
        (temperature.getD (7 / 10)) = .error e) :
    (createChat deps prompt model temperature timestamp userName useRag
        documents topK em st).1
        = .error ("OpenAI API error: " ++ orDefault e.providerMessage e.message)
    ∧ (createChat deps prompt model temperature timestamp userName useRag
        documents topK em st).2.histories = st.histories
    ∧ (createChat deps prompt model temperature timestamp userName useRag
        documents topK em st).2.snapshots = st.snapshots := by
  simp only [createChat, hfail]
  exact ⟨rfl, profileWrite_histories st userName, profileWrite_snapshots st userName⟩

/-- Witness for C7: a quota failure leaves history and snapshots untouched. -/
theorem claim_C7_witness :
    (createChat depsFail "Hi" none none (some "t0") (some "Ann") none none none none
        emptySt).1
        = .error ("OpenAI API error: You exceeded your current quota")
    ∧ (createChat depsFail "Hi" none none (some "t0") (some "Ann") none none none none
        emptySt).2.histories = emptySt.histories
    ∧ (createChat depsFail "Hi" none none (some "t0") (some "Ann") none none none none
        emptySt).2.snapshots = emptySt.snapshots :=
  claim_C7 depsFail "Hi" none none (some "t0") (some "Ann") none none none none emptySt
    ⟨some "You exceeded your current quota", "Request failed with status code 429"⟩ rfl

/-- **C10**: the user-profile write is not covered by the no-writes-on-failure
guarantee: with a truthy userName the profile `{name, cachedAt}` is written
with its 24-hour (86400 s) TTL before the completion call, so it is
overwritten even when the completion fails and the request errors out. -/
theorem claim_C10 {α : Type} [LinearOrderedField α] (deps : Deps α)
    (prompt : String) (model : Option String) (temperature : Option α)
    (timestamp : Option String) (u : String) (useRag : Option Bool)
    (documents : Option (List String)) (topK : Option Nat) (em : Option String)
    (st : St) (e : ProviderError) (hu : u ≠ "")
    (hfail : deps.complete (orDefault model "gpt-3.5-turbo")
        (buildMessages deps (cacheUserName st u) prompt (some u) useRag
          documents topK em)
        (temperature.getD (7 / 10)) = .error e) :
    (createChat deps prompt model temperature timestamp (some u) useRag
        documents topK em st).1
        = .error ("OpenAI API error: " ++ orDefault e.providerMessage e.message)
    ∧ (createChat deps prompt model temperature timestamp (some u) useRag
        documents topK em st).2.profiles (profileKey u)
        = some ⟨⟨u, st.clock⟩, 86400⟩ := by
  have ht : truthy (some u) = true := by simp [truthy, hu]
  simp only [createChat, ht, if_true, Option.getD_some] at *
  simp only [hfail]
  exact ⟨rfl, by simp [cacheUserName]⟩

/-- Witness for C10: the profile of `Ann` is written although the completion
fails. -/
theorem claim_C10_witness :
    (createChat depsFail "Hi" none none none (some "Ann") none none none none
        emptySt).1
        = .error ("OpenAI API error: You exceeded your current quota")
    ∧ (createChat depsFail "Hi" none none none (some "Ann") none none none none
        emptySt).2.profiles (profileKey "Ann")
        = some ⟨⟨"Ann", 0⟩, 86400⟩ :=
  claim_C10 depsFail "Hi" none none none "Ann" none none none none emptySt
    ⟨some "You exceeded your current quota", "Request failed with status code 429"⟩
    (by decide) rfl

/-- **C8**: the current prompt is always the last assembled message, with role
`user`, whichever branch ran; concretely, a request with prompt `Hi`, userName
`Ann` and empty prior history sends exactly `[{user, Hi}]` downstream, and
after the successful reply `Hello` the stored history is
`[{user, Hi}, {assistant, Hello}]`. -/
theorem claim_C8 :
    (∀ (α : Type) (inst : LinearOrderedField α) (deps : Deps α) (st : St)
        (prompt : String) (userName : Option String) (useRag : Option Bool)
        (documents : Option (List String)) (topK : Option Nat) (em : Option String),
      (buildMessages deps st prompt userName useRag documents topK em).getLast?
        = some ⟨"user", prompt⟩)
    ∧ buildMessages depsHello (cacheUserName emptySt "Ann") "Hi" (some "Ann")
        none none none none = [⟨"user", "Hi"⟩]
    ∧ (createChat depsHello "Hi" none none none (some "Ann") none none none none
        emptySt).1 = .ok "Hello"
    ∧ getConversationHistory
        (createChat depsHello "Hi" none none none (some "Ann") none none none none
          emptySt).2 "Ann"
        = [⟨"user", "Hi", "1"⟩, ⟨"assistant", "Hello", "2"⟩] := by
  refine ⟨?_, rfl, rfl, rfl⟩
  intro α inst deps st prompt userName useRag documents topK em
  simp [buildMessages]

theorem foldl_range_triple {M : Type} [AddCommMonoid M] (f g k : Nat → M) (n : Nat)
    (x y z : M) :
    (List.range n).foldl
        (fun acc i => (acc.1 + f i, acc.2.1 + g i, acc.2.2 + k i)) (x, y, z)
      = (x + ∑ i in Finset.range n, f i,
         y + ∑ i in Finset.range n, g i,
         z + ∑ i in Finset.range n, k i) := by
  induction n with
  | zero => simp
  | succ n ih =>
    rw [List.range_succ, List.foldl_append, ih]
    simp [Finset.sum_range_succ, add_assoc]

theorem cosineLoop_eq {F : Type} [LinearOrderedField F] (a b : List F) :
    cosineLoop a b
      = (∑ i in Finset.range a.length, a.getD i 0 * b.getD i 0,
         ∑ i in Finset.range a.length, a.getD i 0 * a.getD i 0,
         ∑ i in Finset.range a.length, b.getD i 0 * b.getD i 0) := by
  unfold cosineLoop
  rw [foldl_range_triple]
  simp

theorem map_getD_range {γ : Type} (l : List γ) (d : γ) :
    (List.range l.length).map (fun i => l.getD i d) = l := by
  apply List.ext_getElem
  · simp
  · intro i h1 h2
    simp only [List.getElem_map, List.getElem_range]
    exact List.getD_eq_getElem _ _ h2

/-- **C4**: assuming the embedding contract (one vector per batch input), the
ranker returns exactly `min k |documents|` documents; in particular with
`k ≥ |documents|` it returns all documents (a permutation of the input, fully
ranked) and performs no clamping of `k` itself. -/
theorem claim_C4 {F : Type} [LinearOrderedField F] (sqrt : F → F)
    (embed : String → List String → List (List F)) (query : String)
    (docs : List String) (k : Nat) (em : String)
    (hlen : (embed em (query :: docs)).length = docs.length + 1)
    (hk : 1 ≤ k) (hd : docs ≠ []) :
    (selectTopKDocuments sqrt embed query docs k em).length = min k docs.length
    ∧ (docs.length ≤ k →
        (selectTopKDocuments sqrt embed query docs k em).Perm docs) := by
  have hdoclen : (embed em (query :: docs)).tail.length = docs.length := by
    simp [List.length_tail, hlen]
  have hmapeq :
      ((embed em (query :: docs)).tail.enum.map
          (fun p => Scored.mk p.1
            (cosineSimilarity sqrt ((embed em (query :: docs)).headD []) p.2))).map
        (fun s => docs.getD s.index "") = docs := by
    rw [List.map_map]
    have h1 : ((fun s : Scored F => docs.getD s.index "") ∘
          (fun p : Nat × List F => Scored.mk p.1
            (cosineSimilarity sqrt ((embed em (query :: docs)).headD []) p.2)))
        = (fun i : Nat => docs.getD i "") ∘ Prod.fst := rfl
    rw [h1, ← List.map_map, List.enum_map_fst, hdoclen, map_getD_range]
  constructor
  · simp [selectTopKDocuments, sortByScoreDesc, List.length_insertionSort, hdoclen]
  · intro hle
    simp only [selectTopKDocuments]
    rw [List.take_of_length_le
        (by simp [sortByScoreDesc, List.length_insertionSort, hdoclen]; omega)]
    have hperm2 : (List.map (fun s => docs.getD s.index "")
        (sortByScoreDesc
          ((embed em (query :: docs)).tail.enum.map
            (fun p => Scored.mk p.1
              (cosineSimilarity sqrt ((embed em (query :: docs)).headD []) p.2))))).Perm
        (((embed em (query :: docs)).tail.enum.map
            (fun p => Scored.mk p.1
              (cosineSimilarity sqrt ((embed em (query :: docs)).headD []) p.2))).map
          (fun s => docs.getD s.index "")) :=
      (List.perm_insertionSort _ _).map _
    exact hperm2.trans (by rw [hmapeq])

/-- Witness for C4: two documents, `k = 5`, a constant embedder honouring the
one-vector-per-input contract. -/
theorem claim_C4_witness :
    (selectTopKDocuments id embedConst "q" ["a", "b"] 5 "m").length = min 5 2
    ∧ (["a", "b"].length ≤ 5 →
        (selectTopKDocuments id embedConst "q" ["a", "b"] 5 "m").Perm ["a", "b"]) :=
  claim_C4 id embedConst "q" ["a", "b"] 5 "m" (by simp [embedConst]) (by decide)
    (by decide)

/-- **C5**: over the reals, the cosine score of two equal-length vectors is
`dot(a,b) / (‖a‖ * ‖b‖)` whenever both Euclidean norms are non-zero, and is
exactly `0` whenever either norm is zero — the guard divides only by non-zero
norms, so a zero document embedding yields score `0`. -/
theorem claim_C5 (a b : List ℝ) (h : a.length = b.length) :
    (specNorm a ≠ 0 → specNorm b ≠ 0 →
      cosineSimilarity Real.sqrt a b = specDot a b / (specNorm a * specNorm b))
    ∧ ((specNorm a = 0 ∨ specNorm b = 0) → cosineSimilarity Real.sqrt a b = 0) := by
  have hb : ∑ i in Finset.range a.length, b.getD i 0 * b.getD i 0 = specNormSq b := by
    unfold specNormSq
    rw [h]
  have hA : 0 ≤ specNormSq a := Finset.sum_nonneg fun i _ => mul_self_nonneg _
  have hB : 0 ≤ specNormSq b := Finset.sum_nonneg fun i _ => mul_self_nonneg _
  have hcos : cosineSimilarity Real.sqrt a b
      = if specNormSq a = 0 ∨ specNormSq b = 0 then 0
        else specDot a b / (Real.sqrt (specNormSq a) * Real.sqrt (specNormSq b)) := by
    simp only [cosineSimilarity, cosineLoop_eq, hb]
    rfl
  constructor
  · intro ha hbne
    have ha' : specNormSq a ≠ 0 := by
      intro hz
      exact ha (by unfold specNorm; rw [hz, Real.sqrt_zero])
    have hb' : specNormSq b ≠ 0 := by
      intro hz
      exact hbne (by unfold specNorm; rw [hz, Real.sqrt_zero])
    rw [hcos, if_neg (by tauto)]
    rfl
  · intro hor
    rcases hor with hz | hz
    · have hz' : specNormSq a = 0 := (Real.sqrt_eq_zero hA).mp hz
      rw [hcos, if_pos (Or.inl hz')]
    · have hz' : specNormSq b = 0 := (Real.sqrt_eq_zero hB).mp hz
      rw [hcos, if_pos (Or.inr hz')]

/-- Witness for C5: a zero query vector scores `0`; two non-degenerate vectors
score the spec formula. -/
theorem claim_C5_witness :
    cosineSimilarity Real.sqrt [0, 0] [3, 4] = 0
    ∧ cosineSimilarity Real.sqrt [2, 0] [3, 0]
        = specDot [2, 0] [3, 0] / (specNorm [2, 0] * specNorm [3, 0]) := by
  refine ⟨(claim_C5 [0, 0] [3, 4] rfl).2 (Or.inl ?_),
    (claim_C5 [2, 0] [3, 0] rfl).1 ?_ ?_⟩
  · unfold specNorm
    rw [show specNormSq [(0:ℝ), 0] = 0 from by
      simp [specNormSq, Finset.sum_range_succ]]
    exact Real.sqrt_zero
  · unfold specNorm
    rw [show specNormSq [(2:ℝ), 0] = 4 from by
      simp [specNormSq, Finset.sum_range_succ]; norm_num]
    exact Real.sqrt_ne_zero'.mpr (by norm_num)
  · unfold specNorm
    rw [show specNormSq [(3:ℝ), 0] = 9 from by
      simp [specNormSq, Finset.sum_range_succ]; norm_num]
    exact Real.sqrt_ne_zero'.mpr (by norm_num)

/-- **C6**: the ranking algorithm on the spec's example — query embedding
`[1,0]` and document embeddings `[1,0]`, `[0,1]`, `[0.7,0.7]` delivered by one
batched embedding call — scores the documents `1`, `0`, `1/√2` and
`selectTopKDocuments` with `k = 2` returns the first and third documents, in
that order. -/
theorem claim_C6 :
    selectTopKDocuments Real.sqrt embedExample "query" ["doc1", "doc2", "doc3"] 2 "model"
      = ["doc1", "doc3"] := by
  have hc0 : cosineSimilarity Real.sqrt [(1:ℝ), 0] [1, 0] = 1 := by
    norm_num [cosineSimilarity, cosineLoop_eq, Finset.sum_range_succ, Real.sqrt_one]
  have hc1 : cosineSimilarity Real.sqrt [(1:ℝ), 0] [0, 1] = 0 := by
    norm_num [cosineSimilarity, cosineLoop_eq, Finset.sum_range_succ, Real.sqrt_one]
  have hc2 : cosineSimilarity Real.sqrt [(1:ℝ), 0] [7 / 10, 7 / 10]
      = 7 / 10 / Real.sqrt (49 / 50) := by
    norm_num [cosineSimilarity, cosineLoop_eq, Finset.sum_range_succ, Real.sqrt_one]
  have hspos : (0:ℝ) < 7 / 10 / Real.sqrt (49 / 50) :=
    div_pos (by norm_num) (Real.sqrt_pos.mpr (by norm_num))
  have hsle : 7 / 10 / Real.sqrt (49 / 50) ≤ 1 := by
    rw [div_le_one (Real.sqrt_pos.mpr (by norm_num))]
    exact (Real.le_sqrt (by norm_num) (by norm_num)).mpr (by norm_num)
  simp only [selectTopKDocuments, embedExample, sortByScoreDesc, List.headD, List.tail,
    List.enum, List.enumFrom, List.map, hc0, hc1, hc2]
  simp only [List.insertionSort, List.orderedInsert]
  rw [if_neg (by simpa using not_le.mpr hspos)]
  simp only [List.orderedInsert]
  rw [if_pos (by simpa using hsle)]
  simp

end Chatbot
